import Mathlib

/-!
Shallow embedding of `packages/grpc-native-core/ext/channel_credentials.cc`
(the Node.js NAN binding for gRPC channel credentials).

JavaScript values that flow through the binding are modelled by the inductive
type `JsValue`; the per-object identity that V8 gives to freshly constructed
wrapper instances is modelled by a `Nat` identifier, with freshness supplied
by the caller (V8 guarantees a newly constructed object is distinct from every
existing one).  Calls into the underlying gRPC security library
(`grpc_ssl_credentials_create`, `grpc_composite_channel_credentials_create`)
are modelled as oracle parameters, and each method additionally returns the
list of native-layer effects it performed, so that "no native construction
occurred" is a statement about that list.
-/

set_option autoImplicit false

namespace GrpcNode

/-- The JavaScript values that reach this binding: `undefined`, `null`,
strings, Buffers (carrying their byte content as a `String`), native `Error`
objects, V8 `External` values wrapping a `grpc_channel_credentials*`
(`none` models the NULL pointer), functions (tagged with an identity),
plain objects (tagged with an identity and carrying the value of their
`checkServerIdentity` property), wrapped `ChannelCredentials` instances
(identity plus the wrapped `grpc_channel_credentials*`, `none` = NULL =
insecure), wrapped `CallCredentials` instances (identity plus the wrapped
native call credential), and a catch-all for any other primitive value. -/
inductive JsValue where
  | undefined : JsValue
  | null : JsValue
  | str : String → JsValue
  | buffer : String → JsValue
  | nativeError : JsValue
  | external : Option Nat → JsValue
  | jsFunction : Nat → JsValue
  | object : Nat → JsValue → JsValue
  | channelCredsInstance : Nat → Option Nat → JsValue
  | callCredsInstance : Nat → Nat → JsValue
  | otherPrimitive : JsValue
  deriving Repr, DecidableEq

/-- `v8::Value::IsNativeError` (line 89 of the source). -/
def JsValue.isNativeError : JsValue → Bool
  | .nativeError => true
  | _ => false

/-- `v8::Value::IsExternal` (line 145). -/
def JsValue.isExternal : JsValue → Bool
  | .external _ => true
  | _ => false

/-- `v8::Value::IsFunction` (line 202): only functions satisfy it. -/
def JsValue.isFunction : JsValue → Bool
  | .jsFunction _ => true
  | _ => false

/-- `v8::Value::IsObject` (line 194): objects, buffers, functions, errors,
externals and wrapped instances are all objects in V8; primitives,
`null` and `undefined` are not. -/
def JsValue.isObject : JsValue → Bool
  | .object _ _ => true
  | .buffer _ => true
  | .jsFunction _ => true
  | .nativeError => true
  | .external _ => true
  | .channelCredsInstance _ _ => true
  | .callCredsInstance _ _ => true
  | _ => false

/-- `Nan::Get(object, "checkServerIdentity")` (lines 199-200): only the
modelled plain object carries that property; on every other object the
property read yields `undefined`. -/
def getCheckServerIdentity : JsValue → JsValue
  | .object _ csi => csi
  | _ => .undefined

/-- The `StringOrNull` helper from `util.h` as used in lines 163-183:
a Buffer argument assigns its content, `null`/`undefined` leave the slot
unassigned (`some none`), and any other value is a type error (`none`). -/
def readStringOrNull : JsValue → Option (Option String)
  | .buffer data => some (some data)
  | .null => some none
  | .undefined => some none
  | _ => none

/-- `ChannelCredentials::HasInstance` (lines 119-122). -/
def ChannelCredentials.HasInstance : JsValue → Bool
  | .channelCredsInstance _ _ => true
  | _ => false

/-- `CallCredentials::HasInstance` (from `call_credentials.cc`, used at
line 228): true exactly on wrapped `CallCredentials` instances. -/
def CallCredentials.HasInstance : JsValue → Bool
  | .callCredsInstance _ _ => true
  | _ => false

/-- Outcome of calling a JavaScript function through `Nan::Call`:
it either returns a value or throws (leaving the `TryCatch` caught). -/
inductive JsCallOutcome where
  | returns : JsValue → JsCallOutcome
  | throws : JsCallOutcome
  deriving Repr, DecidableEq

/-- Lines 70-79: a NULL C string becomes `Null`, otherwise a V8 string. -/
def toVerifyArg : Option String → JsValue
  | none => JsValue.null
  | some s => JsValue.str s

/-- `verify_peer_callback_wrapper` (lines 63-94): builds the two arguments,
calls the user callback, returns 2 if the call threw (the exception is caught
by the `TryCatch` and never propagates), 1 if the returned value is a native
error, and 0 otherwise. -/
def verify_peer_callback_wrapper (callback : JsValue → JsValue → JsCallOutcome)
    (servername cert : Option String) : Int :=
  let argv0 := toVerifyArg servername
  let argv1 := toVerifyArg cert
  match callback argv0 argv1 with
  | .throws => 2
  | .returns result => if result.isNativeError then 1 else 0

/-- Effect of destroying a `Nan::Callback` registration. -/
inductive CallbackEffect where
  | deleteCallback : Nat → CallbackEffect
  deriving Repr, DecidableEq

/-- `verify_peer_callback_destruct` (lines 96-99): deletes the registered
callback, exactly once. -/
def verify_peer_callback_destruct (userdata : Nat) : List CallbackEffect :=
  [CallbackEffect.deleteCallback userdata]

/-- Effect on the native credential object performed by the destructor. -/
inductive ReleaseEffect where
  | free : Nat → ReleaseEffect
  deriving Repr, DecidableEq

/-- Modelled from the spec: `grpc_channel_credentials_release`, the
underlying security library's release primitive, is not among the sources;
per the spec's data-model invariant it is callable on the "no object"
sentinel (NULL), where it does nothing, and frees the object otherwise. -/
def grpc_channel_credentials_release (credentials : Option Nat) : List ReleaseEffect :=
  match credentials with
  | none => []
  | some c => [ReleaseEffect.free c]

/-- `ChannelCredentials::~ChannelCredentials` (lines 59-61): releases the
wrapped credentials (possibly the NULL sentinel) exactly once. -/
def ChannelCredentials.destructor (wrapped_credentials : Option Nat) : List ReleaseEffect :=
  grpc_channel_credentials_release wrapped_credentials

/-- The `verify_peer_options` struct handed to `grpc_ssl_credentials_create`
(lines 192 and 207-209): whether `verify_peer_callback` was set to
`verify_peer_callback_wrapper`, the `Nan::Callback` userdata (identified by
the wrapped JS function), and whether `verify_peer_destruct` was set to
`verify_peer_callback_destruct`. -/
structure VerifyPeerOptions where
  verify_peer_callback_set : Bool
  verify_peer_callback_userdata : Option Nat
  verify_peer_destruct_set : Bool
  deriving Repr, DecidableEq

/-- Native-layer effects performed by the binding methods: allocating a
`Nan::Callback` verification registration, calling
`grpc_ssl_credentials_create`, calling
`grpc_composite_channel_credentials_create`. -/
inductive NativeEffect where
  | allocCallback : Nat → NativeEffect
  | sslCreate : Option String → Option (String × String) → VerifyPeerOptions → NativeEffect
  | compositeCreate : Nat → Nat → NativeEffect
  deriving Repr, DecidableEq

/-- Result of a NAN method: a thrown `TypeError`, a thrown plain `Error`,
a `null` return value, or an ordinary return value. -/
inductive NanResult where
  | throwTypeError : String → NanResult
  | throwError : String → NanResult
  | retNull : NanResult
  | ret : JsValue → NanResult
  deriving Repr, DecidableEq

/-- Result of invoking the `ChannelCredentials` constructor. -/
inductive NewResult where
  | threwTypeError : String → NewResult
  | created : JsValue → NewResult
  deriving Repr, DecidableEq

/-- `ChannelCredentials::New` (lines 143-161): on a construct call whose
first argument is an `External`, wraps the carried pointer into a new
instance (with fresh identity `fresh`); otherwise throws a `TypeError` and
creates nothing. -/
def ChannelCredentials.New (fresh : Nat) (isConstructCall : Bool) (arg0 : JsValue) : NewResult :=
  if isConstructCall then
    match arg0 with
    | .external creds_value => .created (.channelCredsInstance fresh creds_value)
    | _ => .threwTypeError "ChannelCredentials can only be created with the provided functions"
  else
    .threwTypeError "ChannelCredentials can only be created with the provided functions"

/-- `ChannelCredentials::WrapStruct` (lines 124-137): constructs an instance
through the stored constructor with an `External` argument; if construction
produced no instance the result is `Null`. -/
def ChannelCredentials.WrapStruct (fresh : Nat) (credentials : Option Nat) : JsValue :=
  match ChannelCredentials.New fresh true (.external credentials) with
  | .created inst => inst
  | .threwTypeError _ => .null

/-- The key/cert pair actually passed to `grpc_ssl_credentials_create`
(lines 184-185 and 214): the address of the pair when the private key is
assigned, NULL otherwise. -/
def key_cert_pairOf : Option String → Option String → Option (String × String)
  | some pk, some cc => some (pk, cc)
  | _, _ => none

/-- Lines 192-211: build the `verify_peer_options` struct from the fourth
argument.  `undefined` leaves all three fields NULL; a non-object throws; an
object whose `checkServerIdentity` is `undefined` leaves the fields NULL; a
function property allocates a `Nan::Callback` and installs the wrapper, the
callback userdata and the destruct hook; any other property value throws. -/
def buildVerifyOptions (arg3 : JsValue) : Except NanResult (VerifyPeerOptions × List NativeEffect) :=
  if arg3 = JsValue.undefined then
    .ok (⟨false, none, false⟩, [])
  else if ¬ arg3.isObject then
    .error (.throwTypeError "createSsl's fourth argument must be an object")
  else
    match getCheckServerIdentity arg3 with
    | .undefined => .ok (⟨false, none, false⟩, [])
    | .jsFunction fid => .ok (⟨true, some fid, true⟩, [NativeEffect.allocCallback fid])
    | _ => .error (.throwTypeError "Value of checkServerIdentity must be a function.")

/-- `ChannelCredentials::CreateSsl` (lines 163-221).  The first three
arguments are read through `StringOrNull` (type errors thrown for non-Buffer,
non-null values), the private key and certificate chain must be assigned
together, the fourth argument configures peer verification, and finally
`grpc_ssl_credentials_create` (the oracle) is invoked; a NULL result returns
`null`, otherwise the credentials are wrapped into a fresh instance. -/
def ChannelCredentials.CreateSsl
    (grpc_ssl_credentials_create : Option String → Option (String × String) → VerifyPeerOptions → Option Nat)
    (fresh : Nat) (arg0 arg1 arg2 arg3 : JsValue) : NanResult × List NativeEffect :=
  match readStringOrNull arg0 with
  | none => (.throwTypeError "createSsl's first argument must be a Buffer", [])
  | some root_certs =>
    match readStringOrNull arg1 with
    | none => (.throwTypeError "createSSl's second argument must be a Buffer if provided", [])
    | some private_key =>
      match readStringOrNull arg2 with
      | none => (.throwTypeError "createSSl's third argument must be a Buffer if provided", [])
      | some cert_chain =>
        if private_key.isSome ≠ cert_chain.isSome then
          (.throwError "createSsl's second and third arguments must be provided or omitted together", [])
        else
          match buildVerifyOptions arg3 with
          | .error e => (e, [])
          | .ok (verify_options, effects) =>
            let pair := key_cert_pairOf private_key cert_chain
            let effects2 := effects ++ [NativeEffect.sslCreate root_certs pair verify_options]
            match grpc_ssl_credentials_create root_certs pair verify_options with
            | none => (.retNull, effects2)
            | some creds => (.ret (ChannelCredentials.WrapStruct fresh (some creds)), effects2)

/-- `ChannelCredentials::Compose` (lines 223-246): the receiver must be a
`ChannelCredentials` instance, the first argument a `CallCredentials`
instance, the receiver must not wrap NULL (insecure); then
`grpc_composite_channel_credentials_create` (the oracle) combines the two
native credentials, a NULL result returns `null`, otherwise the composite is
wrapped into a fresh instance. -/
def ChannelCredentials.Compose
    (grpc_composite_channel_credentials_create : Nat → Nat → Option Nat)
    (fresh : Nat) (this_ arg0 : JsValue) : NanResult × List NativeEffect :=
  match this_ with
  | .channelCredsInstance _ wrapped_credentials =>
    match arg0 with
    | .callCredsInstance _ other_creds =>
      match wrapped_credentials with
      | none => (.throwTypeError "Cannot compose insecure credential", [])
      | some self_creds =>
        match grpc_composite_channel_credentials_create self_creds other_creds with
        | none => (.retNull, [NativeEffect.compositeCreate self_creds other_creds])
        | some creds =>
            (.ret (ChannelCredentials.WrapStruct fresh (some creds)),
             [NativeEffect.compositeCreate self_creds other_creds])
    | _ => (.throwTypeError "compose's first argument must be a CallCredentials object", [])
  | _ => (.throwTypeError "compose can only be called on ChannelCredentials objects", [])

/-- `ChannelCredentials::CreateInsecure` (lines 248-250): returns
`WrapStruct(NULL)`. -/
def ChannelCredentials.CreateInsecure (fresh : Nat) : NanResult :=
  .ret (ChannelCredentials.WrapStruct fresh none)

/-- Claim C1: for every invocation of the peer-verification bridge with a
possibly-absent server name and possibly-absent certificate text, the bridge
calls the user callback with exactly those two (converted) values and returns
exactly one of the signals 0, 1, 2: 0 iff the callback returned a non-error
value, 1 iff it returned a native-error value, and 2 iff it threw — the
thrown exception being absorbed into the returned signal rather than
propagated. -/
theorem C1_verify_bridge_tri_state (callback : JsValue → JsValue → JsCallOutcome)
    (servername cert : Option String) :
    (verify_peer_callback_wrapper callback servername cert = 0 ∨
      verify_peer_callback_wrapper callback servername cert = 1 ∨
      verify_peer_callback_wrapper callback servername cert = 2) ∧
    (verify_peer_callback_wrapper callback servername cert = 0 ↔
      ∃ v, callback (toVerifyArg servername) (toVerifyArg cert) = .returns v ∧
        v.isNativeError = false) ∧
    (verify_peer_callback_wrapper callback servername cert = 1 ↔
      ∃ v, callback (toVerifyArg servername) (toVerifyArg cert) = .returns v ∧
        v.isNativeError = true) ∧
    (verify_peer_callback_wrapper callback servername cert = 2 ↔
      callback (toVerifyArg servername) (toVerifyArg cert) = .throws) := by
  rcases h : callback (toVerifyArg servername) (toVerifyArg cert) with v | _
  · cases hv : v.isNativeError <;>
      simp [verify_peer_callback_wrapper, h, hv]
  · simp [verify_peer_callback_wrapper, h]

/-- Claim C2: whenever exactly one of the private key (second argument) and
certificate chain (third argument) is supplied, `CreateSsl` performs no
native effect at all (no credential construction, no verification
registration), and — as soon as the first argument passes its own type
check — throws the paired-arguments error; an ill-typed first argument
throws its type error, likewise before any native construction. -/
theorem C2_createSsl_key_cert_together
    (sslCreate : Option String → Option (String × String) → VerifyPeerOptions → Option Nat)
    (fresh : Nat) (a0 a1 a2 a3 : JsValue) (pk cc : Option String)
    (h1 : readStringOrNull a1 = some pk) (h2 : readStringOrNull a2 = some cc)
    (hm : pk.isSome ≠ cc.isSome) :
    (ChannelCredentials.CreateSsl sslCreate fresh a0 a1 a2 a3).2 = [] ∧
    (∀ rc, readStringOrNull a0 = some rc →
      ChannelCredentials.CreateSsl sslCreate fresh a0 a1 a2 a3 =
        (.throwError "createSsl's second and third arguments must be provided or omitted together", [])) ∧
    (readStringOrNull a0 = none →
      ChannelCredentials.CreateSsl sslCreate fresh a0 a1 a2 a3 =
        (.throwTypeError "createSsl's first argument must be a Buffer", [])) := by
  rcases h0 : readStringOrNull a0 with _ | rc
  · simp [ChannelCredentials.CreateSsl, h0]
  · refine ⟨?_, ?_, ?_⟩ <;>
      simp [ChannelCredentials.CreateSsl, h0, h1, h2, if_pos hm]

/-- Witness for C2 at a concrete input: a private key Buffer with a null
certificate chain. -/
theorem C2_createSsl_key_cert_together_witness :
    ChannelCredentials.CreateSsl (fun _ _ _ => none) 0 JsValue.null (.buffer "key") .null .undefined =
      (.throwError "createSsl's second and third arguments must be provided or omitted together", []) :=
  (C2_createSsl_key_cert_together (fun _ _ _ => none) 0 JsValue.null (.buffer "key") .null .undefined
    (some "key") none rfl rfl (by decide)).2.1 none rfl

/-- Claim C3: composing onto a handle that wraps the insecure (NULL)
sentinel always throws the insecure-composition error, for every
call-credential argument, without reaching the native composite constructor
and without allocating any handle (the effect list is empty and the result
is a throw, not a return). -/
theorem C3_compose_insecure_rejected
    (compositeCreate : Nat → Nat → Option Nat)
    (fresh i : Nat) (arg0 : JsValue) (h : CallCredentials.HasInstance arg0 = true) :
    ChannelCredentials.Compose compositeCreate fresh (.channelCredsInstance i none) arg0 =
      (.throwTypeError "Cannot compose insecure credential", []) := by
  cases arg0 <;> simp_all [CallCredentials.HasInstance, ChannelCredentials.Compose]

/-- Witness for C3 at a concrete call-credential argument. -/
theorem C3_compose_insecure_rejected_witness :
    ChannelCredentials.Compose (fun _ _ => none) 0 (.channelCredsInstance 1 none)
        (.callCredsInstance 2 5) =
      (.throwTypeError "Cannot compose insecure credential", []) :=
  C3_compose_insecure_rejected (fun _ _ => none) 0 1 (.callCredsInstance 2 5) rfl

/-- Claim C4: the destructor of a handle releases its native credential
exactly once — the release trace of one destruction is the one-element list
freeing the wrapped object — and for an insecure handle the NULL sentinel is
passed only to the null-safe release primitive, whose trace there is empty
(no free of a nonexistent object).  Destruction is a single event of the
handle's lifetime, so no second release can occur. -/
theorem C4_destructor_releases_exactly_once (c : Nat) :
    ChannelCredentials.destructor (some c) = [ReleaseEffect.free c] ∧
    ChannelCredentials.destructor none = [] :=
  ⟨rfl, rfl⟩

/-- Claim C5: once input validation passes, both `CreateSsl` and `Compose`
map a NULL answer from the underlying library to a `null` return value (not
a thrown error), and a non-NULL answer to a new wrapped handle around the
constructed native object. -/
theorem C5_construction_failure_yields_null
    (sslCreate : Option String → Option (String × String) → VerifyPeerOptions → Option Nat)
    (compositeCreate : Nat → Nat → Option Nat)
    (fresh : Nat) (a0 a1 a2 a3 : JsValue) (rc pk cc : Option String)
    (vo : VerifyPeerOptions) (effs : List NativeEffect)
    (h0 : readStringOrNull a0 = some rc) (h1 : readStringOrNull a1 = some pk)
    (h2 : readStringOrNull a2 = some cc) (hp : pk.isSome = cc.isSome)
    (hv : buildVerifyOptions a3 = .ok (vo, effs))
    (i j sc oc : Nat) :
    (sslCreate rc (key_cert_pairOf pk cc) vo = none →
      (ChannelCredentials.CreateSsl sslCreate fresh a0 a1 a2 a3).1 = .retNull) ∧
    (∀ c, sslCreate rc (key_cert_pairOf pk cc) vo = some c →
      (ChannelCredentials.CreateSsl sslCreate fresh a0 a1 a2 a3).1 =
        .ret (.channelCredsInstance fresh (some c))) ∧
    (compositeCreate sc oc = none →
      (ChannelCredentials.Compose compositeCreate fresh
          (.channelCredsInstance i (some sc)) (.callCredsInstance j oc)).1 = .retNull) ∧
    (∀ c, compositeCreate sc oc = some c →
      (ChannelCredentials.Compose compositeCreate fresh
          (.channelCredsInstance i (some sc)) (.callCredsInstance j oc)).1 =
        .ret (.channelCredsInstance fresh (some c))) := by
  have hp2 : ¬ pk.isSome ≠ cc.isSome := by simp [hp]
  refine ⟨?_, ?_, ?_, ?_⟩
  · intro hn
    simp [ChannelCredentials.CreateSsl, h0, h1, h2, if_neg hp2, hv, hn]
  · intro c hc
    simp [ChannelCredentials.CreateSsl, h0, h1, h2, if_neg hp2, hv, hc,
      ChannelCredentials.WrapStruct, ChannelCredentials.New]
  · intro hn
    simp [ChannelCredentials.Compose, hn]
  · intro c hc
    simp [ChannelCredentials.Compose, hc,
      ChannelCredentials.WrapStruct, ChannelCredentials.New]

/-- Witness for C5: with a library that always fails, `CreateSsl` on
all-null arguments and `Compose` on a secure handle both return `null`. -/
theorem C5_construction_failure_yields_null_witness :
    (ChannelCredentials.CreateSsl (fun _ _ _ => none) 0 .null .null .null .undefined).1 =
      .retNull ∧
    (ChannelCredentials.Compose (fun _ _ => none) 0
        (.channelCredsInstance 1 (some 7)) (.callCredsInstance 2 9)).1 = .retNull :=
  ⟨(C5_construction_failure_yields_null (fun _ _ _ => none) (fun _ _ => none) 0
      .null .null .null .undefined none none none ⟨false, none, false⟩ []
      rfl rfl rfl rfl rfl 1 2 7 9).1 rfl,
   (C5_construction_failure_yields_null (fun _ _ _ => none) (fun _ _ => none) 0
      .null .null .null .undefined none none none ⟨false, none, false⟩ []
      rfl rfl rfl rfl rfl 1 2 7 9).2.2.1 rfl⟩

/-- Claim C6: when the fourth argument carries a `checkServerIdentity`
function, `CreateSsl` allocates a verification registration binding that
function and installs it — wrapper, userdata and destruct hook — on the
native credential request; the destruct hook frees the registration exactly
once; and with no verification function supplied — whether the fourth
argument is `undefined` (line 193) or an options object whose
`checkServerIdentity` property is `undefined` (line 201) — no registration
is allocated and all three `verify_peer_options` fields stay NULL. -/
theorem C6_verification_registration
    (sslCreate : Option String → Option (String × String) → VerifyPeerOptions → Option Nat)
    (fresh oid fid : Nat) (a0 a1 a2 : JsValue) (rc pk cc : Option String)
    (h0 : readStringOrNull a0 = some rc) (h1 : readStringOrNull a1 = some pk)
    (h2 : readStringOrNull a2 = some cc) (hp : pk.isSome = cc.isSome) :
    (ChannelCredentials.CreateSsl sslCreate fresh a0 a1 a2 (.object oid (.jsFunction fid))).2 =
      [NativeEffect.allocCallback fid,
       NativeEffect.sslCreate rc (key_cert_pairOf pk cc) ⟨true, some fid, true⟩] ∧
    verify_peer_callback_destruct fid = [CallbackEffect.deleteCallback fid] ∧
    (ChannelCredentials.CreateSsl sslCreate fresh a0 a1 a2 .undefined).2 =
      [NativeEffect.sslCreate rc (key_cert_pairOf pk cc) ⟨false, none, false⟩] ∧
    (ChannelCredentials.CreateSsl sslCreate fresh a0 a1 a2 (.object oid .undefined)).2 =
      [NativeEffect.sslCreate rc (key_cert_pairOf pk cc) ⟨false, none, false⟩] := by
  have hp2 : ¬ pk.isSome ≠ cc.isSome := by simp [hp]
  refine ⟨?_, rfl, ?_, ?_⟩
  · rcases hc : sslCreate rc (key_cert_pairOf pk cc) ⟨true, some fid, true⟩ with _ | c <;>
      simp [ChannelCredentials.CreateSsl, h0, h1, h2, if_neg hp2, hc,
        buildVerifyOptions, getCheckServerIdentity, JsValue.isObject]
  · rcases hc : sslCreate rc (key_cert_pairOf pk cc) ⟨false, none, false⟩ with _ | c <;>
      simp [ChannelCredentials.CreateSsl, h0, h1, h2, if_neg hp2, hc, buildVerifyOptions]
  · rcases hc : sslCreate rc (key_cert_pairOf pk cc) ⟨false, none, false⟩ with _ | c <;>
      simp [ChannelCredentials.CreateSsl, h0, h1, h2, if_neg hp2, hc,
        buildVerifyOptions, getCheckServerIdentity, JsValue.isObject]

/-- Witness for C6 at concrete arguments: root certs only, a verification
function with identity 3 inside an options object. -/
theorem C6_verification_registration_witness :
    (ChannelCredentials.CreateSsl (fun _ _ _ => some 4) 0 (.buffer "ca") .null .null
        (.object 1 (.jsFunction 3))).2 =
      [NativeEffect.allocCallback 3,
       NativeEffect.sslCreate (some "ca") none ⟨true, some 3, true⟩] ∧
    verify_peer_callback_destruct 3 = [CallbackEffect.deleteCallback 3] ∧
    (ChannelCredentials.CreateSsl (fun _ _ _ => some 4) 0 (.buffer "ca") .null .null
        (.object 1 .undefined)).2 =
      [NativeEffect.sslCreate (some "ca") none ⟨false, none, false⟩] :=
  ⟨(C6_verification_registration (fun _ _ _ => some 4) 0 1 3 (.buffer "ca") .null .null
      (some "ca") none none rfl rfl rfl rfl).1,
   (C6_verification_registration (fun _ _ _ => some 4) 0 1 3 (.buffer "ca") .null .null
      (some "ca") none none rfl rfl rfl rfl).2.1,
   (C6_verification_registration (fun _ _ _ => some 4) 0 1 3 (.buffer "ca") .null .null
      (some "ca") none none rfl rfl rfl rfl).2.2.2⟩

/-- Claim C7: `CreateInsecure` is total and always returns a handle wrapping
the NULL sentinel, and every later composition attempt on that handle with a
call-credential argument fails with the insecure-composition error,
allocating nothing. -/
theorem C7_createInsecure_never_fails
    (compositeCreate : Nat → Nat → Option Nat) (fresh fresh2 : Nat) (arg0 : JsValue)
    (h : CallCredentials.HasInstance arg0 = true) :
    ChannelCredentials.CreateInsecure fresh = .ret (.channelCredsInstance fresh none) ∧
    ChannelCredentials.Compose compositeCreate fresh2 (.channelCredsInstance fresh none) arg0 =
      (.throwTypeError "Cannot compose insecure credential", []) := by
  constructor
  · rfl
  · cases arg0 <;> simp_all [CallCredentials.HasInstance, ChannelCredentials.Compose]

/-- Witness for C7 at a concrete call-credential argument. -/
theorem C7_createInsecure_never_fails_witness :
    ChannelCredentials.CreateInsecure 0 = .ret (.channelCredsInstance 0 none) ∧
    ChannelCredentials.Compose (fun _ _ => some 3) 1 (.channelCredsInstance 0 none)
        (.callCredsInstance 2 5) =
      (.throwTypeError "Cannot compose insecure credential", []) :=
  C7_createInsecure_never_fails (fun _ _ => some 3) 0 1 (.callCredsInstance 2 5) rfl

/-- Claim C8: a successful composition yields a new handle (fresh identity,
hence distinct from both input objects) wrapping the composite native
credential, while touching the native layer only through the composite
constructor.  The inputs are immutable values the operation only reads, so
both remain valid afterwards: repeating the composition with the same two
handles (at any later fresh identity) succeeds again. -/
theorem C8_compose_returns_fresh_handle
    (compositeCreate : Nat → Nat → Option Nat) (fresh i j sc oc c : Nat)
    (hi : i ≠ fresh) (_hj : j ≠ fresh) (hc : compositeCreate sc oc = some c) :
    ChannelCredentials.Compose compositeCreate fresh
        (.channelCredsInstance i (some sc)) (.callCredsInstance j oc) =
      (.ret (.channelCredsInstance fresh (some c)), [NativeEffect.compositeCreate sc oc]) ∧
    (JsValue.channelCredsInstance fresh (some c)) ≠ .channelCredsInstance i (some sc) ∧
    (JsValue.channelCredsInstance fresh (some c)) ≠ .callCredsInstance j oc ∧
    (∀ fresh2, ChannelCredentials.Compose compositeCreate fresh2
        (.channelCredsInstance i (some sc)) (.callCredsInstance j oc) =
      (.ret (.channelCredsInstance fresh2 (some c)), [NativeEffect.compositeCreate sc oc])) := by
  refine ⟨?_, ?_, ?_, ?_⟩
  · simp [ChannelCredentials.Compose, hc, ChannelCredentials.WrapStruct, ChannelCredentials.New]
  · intro hcontra
    exact hi (by injection hcontra with h1 h2; exact h1.symm)
  · intro hcontra
    cases hcontra
  · intro fresh2
    simp [ChannelCredentials.Compose, hc, ChannelCredentials.WrapStruct, ChannelCredentials.New]

/-- Witness for C8 at concrete handles with identities 1 and 2 and a fresh
identity 5. -/
theorem C8_compose_returns_fresh_handle_witness :
    ChannelCredentials.Compose (fun _ _ => some 9) 5
        (.channelCredsInstance 1 (some 7)) (.callCredsInstance 2 8) =
      (.ret (.channelCredsInstance 5 (some 9)), [NativeEffect.compositeCreate 7 8]) ∧
    (JsValue.channelCredsInstance 5 (some 9)) ≠ .channelCredsInstance 1 (some 7) :=
  ⟨(C8_compose_returns_fresh_handle (fun _ _ => some 9) 5 1 2 7 8 9
      (by decide) (by decide) rfl).1,
   (C8_compose_returns_fresh_handle (fun _ _ => some 9) 5 1 2 7 8 9
      (by decide) (by decide) rfl).2.1⟩

/-- Claim C9: `Compose` throws the receiver type error whenever the receiver
is not a `ChannelCredentials` instance, throws the argument type error when
the receiver is an instance but the argument is not a `CallCredentials`
instance — both with an empty native-effect list, hence before any
insecure-sentinel check or native call — and any native effect implies both
type checks passed and the receiver wrapped a non-NULL credential. -/
theorem C9_compose_type_checks
    (compositeCreate : Nat → Nat → Option Nat) (fresh : Nat) (this_ arg0 : JsValue) :
    (ChannelCredentials.HasInstance this_ = false →
      ChannelCredentials.Compose compositeCreate fresh this_ arg0 =
        (.throwTypeError "compose can only be called on ChannelCredentials objects", [])) ∧
    (ChannelCredentials.HasInstance this_ = true → CallCredentials.HasInstance arg0 = false →
      ChannelCredentials.Compose compositeCreate fresh this_ arg0 =
        (.throwTypeError "compose's first argument must be a CallCredentials object", [])) ∧
    ((ChannelCredentials.Compose compositeCreate fresh this_ arg0).2 ≠ [] →
      ChannelCredentials.HasInstance this_ = true ∧ CallCredentials.HasInstance arg0 = true ∧
      ∃ i sc, this_ = .channelCredsInstance i (some sc)) := by
  refine ⟨?_, ?_, ?_⟩
  · intro hthis
    cases this_ <;>
      simp_all [ChannelCredentials.HasInstance, ChannelCredentials.Compose]
  · intro hthis harg
    cases this_ <;> simp_all [ChannelCredentials.HasInstance]
    cases arg0 <;>
      simp_all [CallCredentials.HasInstance, ChannelCredentials.Compose]
  · intro heff
    cases this_ <;>
      try simp [ChannelCredentials.Compose] at heff
    rename_i i w
    cases arg0 <;>
      try simp [ChannelCredentials.Compose] at heff
    rename_i j oc
    rcases w with _ | sc
    · simp [ChannelCredentials.Compose] at heff
    · exact ⟨rfl, rfl, i, sc, rfl⟩

/-- Witness for C9: a `null` receiver throws the receiver type error. -/
theorem C9_compose_type_checks_witness :
    ChannelCredentials.Compose (fun _ _ => none) 0 JsValue.null JsValue.null =
      (.throwTypeError "compose can only be called on ChannelCredentials objects", []) :=
  (C9_compose_type_checks (fun _ _ => none) 0 JsValue.null JsValue.null).1 rfl

/-- Claim C10: the `ChannelCredentials` constructor throws a `TypeError`
and creates no handle when not invoked as a construct call, or when its
first argument is not the internal `External` value; only a construct call
carrying an `External` produces a wrapped instance. -/
theorem C10_constructor_guard (fresh : Nat) (arg0 : JsValue) (creds : Option Nat) :
    (ChannelCredentials.New fresh false arg0 =
      .threwTypeError "ChannelCredentials can only be created with the provided functions") ∧
    (arg0.isExternal = false → ChannelCredentials.New fresh true arg0 =
      .threwTypeError "ChannelCredentials can only be created with the provided functions") ∧
    (ChannelCredentials.New fresh true (.external creds) =
      .created (.channelCredsInstance fresh creds)) := by
  refine ⟨rfl, ?_, rfl⟩
  intro hext
  cases arg0 <;> simp_all [JsValue.isExternal, ChannelCredentials.New]

/-- Witness for C10: a non-construct call and a construct call on a
non-External argument both throw; a construct call on an `External` wraps. -/
theorem C10_constructor_guard_witness :
    ChannelCredentials.New 0 true JsValue.null =
      .threwTypeError "ChannelCredentials can only be created with the provided functions" :=
  (C10_constructor_guard 0 JsValue.null none).2.1 rfl

end GrpcNode
